import Mathlib

/-!
Verification of the incremental classification and synchronization engine of
the Spotify-Smart-Playlist repository (`autolist_increment.py`), as a shallow
embedding.  Python dictionaries become association lists with insert-or-
overwrite semantics, the remote service and the clock become an explicit
read-only environment (`Env`), the mutable fields of the `AutoListIncremental`
object become an explicit state record (`RunState`), and exceptions raised by
the HTTP library or by file I/O become `Except`/`Bool` oracles in the
environment, handled exactly where the source handles them.  String
comparison and lower-casing are modelled over `List Char` (code-point
lexicographic order, as in Python).
-/

set_option maxRecDepth 20000

namespace AutoList

/-- Insert-or-overwrite for a string-keyed association list: the Python
`d[k] = v` on a dict (overwrites the first binding in place, else appends). -/
def alSet {α : Type} : List (String × α) → String → α → List (String × α)
  | [], k, v => [(k, v)]
  | kv :: t, k, v => if kv.1 == k then (k, v) :: t else kv :: alSet t k v

/-- Lookup in a string-keyed association list: the Python `d.get(k)`. -/
def alGet {α : Type} : List (String × α) → String → Option α
  | [], _ => none
  | kv :: t, k => if kv.1 == k then some kv.2 else alGet t k

/-- Key-membership test: the Python `k in d`. -/
def alHas {α : Type} (m : List (String × α)) (k : String) : Bool :=
  m.any (fun kv => kv.1 == k)

/-- Key removal: the Python `del d[k]`. -/
def alDel {α : Type} (m : List (String × α)) (k : String) : List (String × α) :=
  m.filter (fun kv => !(kv.1 == k))

/-- Python truthiness of an optional string (`None` and `""` are falsy). -/
def strTruthy : Option String → Bool
  | none => false
  | some s => !(s == "")

/-- Python truthiness of an optional integer (`None` and `0` are falsy). -/
def natTruthy : Option Nat → Bool
  | none => false
  | some n => !(n == 0)

/-- Python string comparison `a < b`: lexicographic on code points. -/
def lexLt : List Char → List Char → Bool
  | [], [] => false
  | [], _ :: _ => true
  | _ :: _, [] => false
  | a :: as, b :: bs =>
    if a.toNat < b.toNat then true
    else if b.toNat < a.toNat then false
    else lexLt as bs

/-- Needle is a leading segment of hay. -/
def leadsWith : List Char → List Char → Bool
  | [], _ => true
  | _ :: _, [] => false
  | a :: as, b :: bs => a == b && leadsWith as bs

/-- Needle occurs contiguously inside hay: the Python `needle in hay` on strings. -/
def subAt (needle hay : List Char) : Bool :=
  match hay with
  | [] => leadsWith needle []
  | _ :: t => leadsWith needle hay || subAt needle t

/-- Python `c.lower()` applied character-wise. -/
def lowerChars (l : List Char) : List Char := l.map Char.toLower

structure Artist where
  id : String
  name : String
deriving DecidableEq

structure Track where
  id : String
  name : String
  artists : List Artist
  liked_at : String
deriving DecidableEq

/-- One element of a saved-tracks page: `item["track"]` (possibly null) and
`item["added_at"]`. -/
structure PageItem where
  track : Option Track
  added_at : String
deriving DecidableEq

/-- A ledger entry, as written under `processed_tracks[track_id]`. -/
structure Entry where
  processed_at : String
  action : String
  playlist_id : Option String
  reason : String
  track_name : String
  artists : List String
deriving DecidableEq

/-- The processing-history ledger (`processing_history.json`). -/
structure History where
  processed_tracks : List (String × Entry)
  last_run : Option String
  total_runs : Nat
  start_date : Option String
  start_index : Option Nat
deriving DecidableEq

structure Stats where
  total_liked : Nat
  new_tracks : Nat
  processed : Nat
  sorted : Nat
  skipped : Nat
  duplicates : Nat
  errors : Nat
  genre_matches : List (String × Nat)
deriving DecidableEq

def stats0 : Stats :=
  { total_liked := 0, new_tracks := 0, processed := 0, sorted := 0,
    skipped := 0, duplicates := 0, errors := 0, genre_matches := [] }

/-- Matching settings; the source reads `case_sensitive` (default false) and
`partial_match` (default true) from the config.  The second field keeps the
source's meaning under the name `sub_match`. -/
structure Settings where
  case_sensitive : Bool
  sub_match : Bool
deriving DecidableEq

structure Config where
  rules : List (String × String)
  settings : Settings
deriving DecidableEq

/-- The read-only outside world for one run: the remote service's responses
and the clock.  A page of `/me/tracks` either yields its items or raises
(`Except.error`); artist-batch requests, playlist-membership reads and
playlist writes succeed or raise according to the oracles; `writeOk` tells
whether writing the history file raises. -/
structure Env where
  pages : List (Except Unit (List PageItem))
  artistGenres : String → List String
  fetchArtistsOk : List String → Bool
  playlistFetchOk : String → Bool
  addOk : String → String → Bool
  writeOk : Bool
  now : String
  today : String

/-- Mutable state of one `AutoListIncremental` instance: the in-memory
ledger, the artist-genre cache, the playlist-membership cache
(`_playlist_cache`), the remote playlists themselves (mutated by successful
adds), the statistics, and the on-disk history file. -/
structure RunState where
  history : History
  gcache : List (String × List String)
  pcache : List (String × List String)
  world : List (String × List String)
  stats : Stats
  file : Option History
deriving DecidableEq

def freshHistory : History :=
  { processed_tracks := [], last_run := none, total_runs := 0,
    start_date := none, start_index := none }

/-- `_load_processing_history`: a missing file yields the fresh ledger. -/
def load_processing_history (file : Option History) : History :=
  file.getD freshHistory

/-- A newly constructed `AutoListIncremental`: ledger loaded from the file,
cold caches, zeroed statistics. -/
def fresh_instance (file : Option History) (world : List (String × List String)) : RunState :=
  { history := load_processing_history file, gcache := [], pcache := [],
    world := world, stats := stats0, file := file }

/-- The guard used both by `run` and by the baseline initializer:
`history.get("start_date") or history.get("start_index")` under Python
truthiness. -/
def baselineSet (h : History) : Bool :=
  strTruthy h.start_date || natTruthy h.start_index

/-- Tracks extracted from one page: items whose `track` is present with a
truthy id, with `liked_at` set from `added_at`. -/
def extractPage (items : List PageItem) : List Track :=
  items.foldl
    (fun acc it =>
      match it.track with
      | some t => if t.id == "" then acc else acc ++ [{ t with liked_at := it.added_at }]
      | none => acc)
    []

/-- The pagination loop of `get_all_liked_songs`: stop on an empty page; on a
request exception print and break, returning what was fetched so far. -/
def getAllLikedSongsLoop : List (Except Unit (List PageItem)) → List Track → List Track
  | [], acc => acc
  | (Except.error _) :: _, acc => acc
  | (Except.ok items) :: rest, acc =>
    if items.isEmpty then acc else getAllLikedSongsLoop rest (acc ++ extractPage items)

def get_all_liked_songs (env : Env) : List Track :=
  getAllLikedSongsLoop env.pages []

/-- `filter_new_tracks`: keep tracks with a truthy id not already in the
ledger. -/
def filter_new_tracks (h : History) (all_tracks : List Track) : List Track :=
  all_tracks.filter (fun t => !(t.id == "") && !(alHas h.processed_tracks t.id))

/-- Batches of at most 50 ids, as `uncached_ids[i:i+50]`; the fuel argument
only drives the structural recursion and is instantiated with the list
length, which bounds the number of slices taken. -/
def chunksFuel : Nat → List String → List (List String)
  | _, [] => []
  | 0, _ :: _ => []
  | f + 1, a :: t => ((a :: t).take 50) :: chunksFuel f ((a :: t).drop 50)

def chunksOf50 (l : List String) : List (List String) := chunksFuel l.length l

/-- `get_artist_genres_batch`: uncached ids are fetched in batches of 50; a
successful batch caches each artist's genres, a failed batch caches `[]` for
every id in it; the returned map reads the updated cache. -/
def get_artist_genres_batch (env : Env) (cache : List (String × List String))
    (artist_ids : List String) :
    List (String × List String) × List (String × List String) :=
  let uncached := artist_ids.filter (fun aid => !(alHas cache aid))
  let cache2 := (chunksOf50 uncached).foldl
    (fun c batch =>
      if env.fetchArtistsOk batch then
        batch.foldl (fun c2 aid => alSet c2 aid (env.artistGenres aid)) c
      else
        batch.foldl (fun c2 aid => alSet c2 aid []) c)
    cache
  (cache2, artist_ids.map (fun aid => (aid, (alGet cache2 aid).getD [])))

/-- `list(dict.fromkeys(xs))`: deduplicate keeping first occurrences. -/
def dedupKeepFirst (l : List String) : List String :=
  l.foldl (fun acc g => if acc.contains g then acc else acc ++ [g]) []

/-- `get_track_genres`: the deduplicated concatenation of the genres of the
track's artists (artists with falsy ids dropped), via the batch resolver. -/
def get_track_genres (env : Env) (cache : List (String × List String)) (t : Track) :
    List (String × List String) × List String :=
  if t.artists.isEmpty then (cache, [])
  else
    let artist_ids := (t.artists.map Artist.id).filter (fun aid => !(aid == ""))
    if artist_ids.isEmpty then (cache, [])
    else
      let gb := get_artist_genres_batch env cache artist_ids
      let all_genres := artist_ids.foldl (fun acc aid => acc ++ ((alGet gb.2 aid).getD [])) []
      (gb.1, dedupKeepFirst all_genres)

/-- The inner-loop body of `match_genres_to_playlist` for one genre/rule
pair: returns the match type when the pair matches under the settings. -/
def matchCheck (case_sensitive sub : Bool) (genre rule_genre : String) : Option String :=
  let genre_check := if case_sensitive then genre.toList else lowerChars genre.toList
  let rule_check := if case_sensitive then rule_genre.toList else lowerChars rule_genre.toList
  if sub then
    if subAt rule_check genre_check then some "partial_rule_in_genre"
    else if subAt genre_check rule_check then some "partial_genre_in_rule"
    else none
  else if rule_check == genre_check then some "exact" else none

structure MatchResult where
  playlist_id : String
  matched_genre : String
  rule_genre : String
  match_type : String
deriving DecidableEq

/-- `match_genres_to_playlist`: genres in resolved order (outer loop), rules
in configuration order (inner loop); the first matching pair is returned. -/
def match_genres_to_playlist (st : Settings) (rules : List (String × String))
    (genres : List String) : Option MatchResult :=
  genres.findSome? fun genre =>
    rules.findSome? fun rp =>
      (matchCheck st.case_sensitive st.sub_match genre rp.1).map fun mt =>
        { playlist_id := rp.2, matched_genre := genre, rule_genre := rp.1, match_type := mt }

/-- `get_playlist_tracks_set`: serve from `_playlist_cache` when present,
else read the membership from the remote playlist and cache it.  The
pagination of the remote read is collapsed: a failed read yields the partial
(here: empty) set, which is cached all the same, exactly as in the source. -/
def get_playlist_tracks_set (env : Env) (world pcache : List (String × List String))
    (playlist_id : String) : List (String × List String) × List String :=
  match alGet pcache playlist_id with
  | some ts => (pcache, ts)
  | none =>
    let ts := if env.playlistFetchOk playlist_id then (alGet world playlist_id).getD [] else []
    (alSet pcache playlist_id ts, ts)

/-- `add_track_to_playlist`: on success the remote playlist gains the track
and the membership cache entry is invalidated; on a request exception the
function prints and returns failure, leaving both untouched. -/
def add_track_to_playlist (env : Env) (world pcache : List (String × List String))
    (playlist_id track_id : String) :
    List (String × List String) × List (String × List String) × Bool :=
  if env.addOk playlist_id track_id then
    (alSet world playlist_id ((alGet world playlist_id).getD [] ++ [track_id]),
     alDel pcache playlist_id, true)
  else (world, pcache, false)

/-- The per-track result record built by `process_track`. -/
structure PResult where
  track_name : String
  artist_names : List String
  track_id : String
  liked_at : String
  action : String
  reason : String
  playlist_id : Option String
  match_details : Option MatchResult
  genres_found : List String
deriving DecidableEq

def bumpGenreMatch (st : Stats) (g : String) : Stats :=
  { st with genre_matches := alSet st.genre_matches g ((alGet st.genre_matches g).getD 0 + 1) }

/-- `process_track`: resolve genres, match a rule, check the destination for
a duplicate, and only then issue the add; the outcome is one of `skipped`,
`duplicate`, `sorted`, `error`. -/
def process_track (cfg : Config) (env : Env) (s : RunState) (t : Track) :
    RunState × PResult :=
  let base : PResult :=
    { track_name := t.name, artist_names := t.artists.map Artist.name,
      track_id := t.id, liked_at := t.liked_at, action := "skipped", reason := "",
      playlist_id := none, match_details := none, genres_found := [] }
  if t.id == "" then (s, { base with reason := "Invalid track ID" })
  else
    let gr := get_track_genres env s.gcache t
    let s1 : RunState := { s with gcache := gr.1 }
    let genres := gr.2
    let base1 : PResult := { base with genres_found := genres }
    if genres.isEmpty then (s1, { base1 with reason := "No genres found" })
    else
      match match_genres_to_playlist cfg.settings cfg.rules genres with
      | none =>
        (s1, { base1 with reason := "No rule match for genres: " ++ String.intercalate ", " genres })
      | some m =>
        let base2 : PResult := { base1 with match_details := some m }
        let pr := get_playlist_tracks_set env s1.world s1.pcache m.playlist_id
        let s2 : RunState := { s1 with pcache := pr.1 }
        if pr.2.contains t.id then
          (s2, { base2 with
                 action := "duplicate"
                 reason := "Track already exists in target playlist"
                 playlist_id := some m.playlist_id })
        else
          let ar := add_track_to_playlist env s2.world s2.pcache m.playlist_id t.id
          let s3 : RunState := { s2 with world := ar.1, pcache := ar.2.1 }
          if ar.2.2 then
            (({ s3 with stats := bumpGenreMatch s3.stats m.rule_genre }),
             { base2 with
               action := "sorted"
               reason := "Added to playlist (matched: " ++ m.matched_genre ++ " to " ++ m.rule_genre ++ ")"
               playlist_id := some m.playlist_id })
          else
            (s3, { base2 with action := "error", reason := "Failed to add track to playlist" })

/-- `record_processing_result`: write the outcome into the ledger under the
track id. -/
def record_processing_result (env : Env) (h : History) (track_id : String) (r : PResult) :
    History :=
  { h with
    processed_tracks := alSet h.processed_tracks track_id
      { processed_at := env.now, action := r.action, playlist_id := r.playlist_id,
        reason := r.reason, track_name := r.track_name, artists := r.artist_names } }

/-- `_save_processing_history`: bump `last_run`/`total_runs`, then write the
file; a write exception is caught and printed, leaving the in-memory bumps in
place and the file untouched. -/
def save_processing_history (env : Env) (s : RunState) : RunState :=
  let h := { s.history with last_run := some env.now, total_runs := s.history.total_runs + 1 }
  if env.writeOk then { s with history := h, file := some h }
  else { s with history := h }

/-- `_mark_as_baseline_processed`: record a `baseline` entry for a track with
a truthy id. -/
def mark_as_baseline_processed (env : Env) (h : History) (t : Track) : History :=
  if t.id == "" then h
  else
    { h with
      processed_tracks := alSet h.processed_tracks t.id
        { processed_at := env.now, action := "baseline", playlist_id := none,
          reason := "Marked as baseline processed (existing song)",
          track_name := t.name, artists := t.artists.map Artist.name } }

/-- The body of the date-mode baseline loop: mark a track when
`liked_at and liked_at[:10] < start_date`. -/
def dateMarkStep (env : Env) (sd : String) (h : History) (t : Track) : History :=
  if !(t.liked_at == "") && lexLt (t.liked_at.toList.take 10) sd.toList then
    mark_as_baseline_processed env h t
  else h

/-- `initialize_baseline` (source name): skip when the truthiness guard sees
an existing baseline; otherwise fetch the full listing and, in `date` mode,
mark tracks liked strictly before the start date (defaulting to today when
the parameter is falsy), or, in `index` mode, mark the first
`min(start_index, len)` tracks (the index defaulting to the full count); then
save. -/
def init_baseline (env : Env) (s : RunState) (mode : String)
    (start_date : Option String) (start_index : Option Nat) : RunState :=
  if baselineSet s.history then s
  else
    let all_tracks := get_all_liked_songs env
    let s1 :=
      if mode == "date" then
        let sd := if strTruthy start_date then start_date.getD "" else env.today
        let h0 := { s.history with start_date := some sd }
        let h1 := all_tracks.foldl (dateMarkStep env sd) h0
        { s with history := h1 }
      else if mode == "index" then
        let si := start_index.getD all_tracks.length
        let h0 := { s.history with start_index := some si }
        let h1 := (all_tracks.take (min si all_tracks.length)).foldl
          (fun h t => mark_as_baseline_processed env h t) h0
        { s with history := h1 }
      else s
    save_processing_history env s1

/-- The body of the processing loop of `run` for one new track: bump
`processed`, process, record the outcome in the ledger, bump the outcome
counter. -/
def procStep (cfg : Config) (env : Env) (s : RunState) (t : Track) : RunState :=
  let sa : RunState := { s with stats := { s.stats with processed := s.stats.processed + 1 } }
  let pr := process_track cfg env sa t
  let sc : RunState := { pr.1 with history := record_processing_result env pr.1.history t.id pr.2 }
  let st := sc.stats
  let st2 :=
    if pr.2.action == "sorted" then { st with sorted := st.sorted + 1 }
    else if pr.2.action == "duplicate" then { st with duplicates := st.duplicates + 1 }
    else if pr.2.action == "error" then { st with errors := st.errors + 1 }
    else { st with skipped := st.skipped + 1 }
  { sc with stats := st2 }

def procLoop (cfg : Config) (env : Env) (s : RunState) (ts : List Track) : RunState :=
  ts.foldl (procStep cfg env) s

/-- `run`: abort-free orchestration as in the source — every exception a
callee can raise is caught inside that callee, so no execution path produces
`Except.error`; an uncaught exception would surface here as one. -/
def run (cfg : Config) (env : Env) (s0 : RunState) (init_mode : Option String)
    (start_date : Option String) (start_index : Option Nat) :
    Except String (RunState × Stats) :=
  if cfg.rules.isEmpty then Except.ok (s0, s0.stats)
  else
    let s1 := if strTruthy init_mode && !(baselineSet s0.history) then
        init_baseline env s0 (init_mode.getD "") start_date start_index
      else s0
    let all_tracks := get_all_liked_songs env
    let s2 : RunState := { s1 with stats := { s1.stats with total_liked := all_tracks.length } }
    if all_tracks.isEmpty then Except.ok (s2, s2.stats)
    else
      let new_tracks := filter_new_tracks s2.history all_tracks
      let s3 : RunState := { s2 with stats := { s2.stats with new_tracks := new_tracks.length } }
      if new_tracks.isEmpty then Except.ok (s3, s3.stats)
      else
        let s4 := procLoop cfg env s3 new_tracks
        let s5 := save_processing_history env s4
        Except.ok (s5, s5.stats)

def exceptOk {ε α : Type} : Except ε α → Bool
  | Except.ok _ => true
  | Except.error _ => false

def runState : Except String (RunState × Stats) → RunState
  | Except.ok p => p.1
  | Except.error _ => fresh_instance none []

def runStats : Except String (RunState × Stats) → Stats
  | Except.ok p => p.2
  | Except.error _ => stats0

/-- True when an entry is present and carries one of the four per-item
outcomes of the processing pipeline. -/
def actionRecorded : Option Entry → Bool
  | some e => e.action == "sorted" || e.action == "duplicate" ||
      e.action == "skipped" || e.action == "error"
  | none => false

/-- Case-normalization as the spec words it: lower-case unless case-sensitive
matching is configured. -/
def norm_tag (case_sensitive : Bool) (s : String) : List Char :=
  if case_sensitive then s.toList else lowerChars s.toList

/-- Whether a rule tag and an item tag match, written from the spec's words
(section 4.4): exact means case-normalized equality; the default kind means
the rule tag is a substring of the item tag or the item tag is a substring of
the rule tag. -/
def pair_matches_spec (case_sensitive sub : Bool) (rule_tag item_tag : String) : Bool :=
  if sub then
    subAt (norm_tag case_sensitive rule_tag) (norm_tag case_sensitive item_tag) ||
    subAt (norm_tag case_sensitive item_tag) (norm_tag case_sensitive rule_tag)
  else norm_tag case_sensitive rule_tag == norm_tag case_sensitive item_tag

/-- The matcher as the spec words it: iterate tags in resolved order and, per
tag, rules in configuration order; return the first satisfying tag/rule pair
as (matched tag, rule tag, destination). -/
def rule_match_spec (st : Settings) (rules : List (String × String)) (tags : List String) :
    Option (String × String × String) :=
  tags.findSome? fun t =>
    rules.findSome? fun rp =>
      if pair_matches_spec st.case_sensitive st.sub_match rp.1 t then some (t, rp.1, rp.2)
      else none

/- Concrete fixtures used by witnesses and counterexamples. -/

def ar1 : Artist := { id := "ar1", name := "Artist One" }

def trackA : Track := { id := "ta", name := "Song A", artists := [ar1], liked_at := "" }

def itemA : PageItem := { track := some trackA, added_at := "2024-01-03T10:00:00Z" }

def trackA2 : Track := { trackA with liked_at := "2024-01-03T10:00:00Z" }

def trackOld : Track := { id := "old1", name := "Old Song", artists := [], liked_at := "" }

def itemOld : PageItem := { track := some trackOld, added_at := "2024-01-01T00:00:00Z" }

def trackOld2 : Track := { trackOld with liked_at := "2024-01-01T00:00:00Z" }

def trackB : Track := { id := "tb", name := "Song B", artists := [], liked_at := "" }

def itemB : PageItem := { track := some trackB, added_at := "2024-01-02T00:00:00Z" }

def trackB2 : Track := { trackB with liked_at := "2024-01-02T00:00:00Z" }

def cfgRock : Config :=
  { rules := [("rock", "P1")], settings := { case_sensitive := false, sub_match := true } }

def envBase : Env :=
  { pages := [Except.ok [itemA]],
    artistGenres := fun aid => if aid == "ar1" then ["rock"] else [],
    fetchArtistsOk := fun _ => true,
    playlistFetchOk := fun _ => true,
    addOk := fun _ _ => true,
    writeOk := true,
    now := "2024-02-01T00:00:00",
    today := "2024-02-01" }

def s0Fresh : RunState := fresh_instance none []

def envPageFail : Env := { envBase with pages := [Except.ok [itemA], Except.error ()] }

def envNoWrite : Env := { envBase with writeOk := false }

def envOld : Env := { envBase with pages := [Except.ok [itemOld]] }

def envTwo : Env := { envBase with pages := [Except.ok [itemOld, itemB]] }

def envAddFail : Env := { envBase with addOk := fun _ _ => false }

/-- A ledger whose baseline was initialized in index mode with index 0. -/
def historyI0 : History :=
  { processed_tracks := [], last_run := none, total_runs := 1,
    start_date := none, start_index := some 0 }

def sI0 : RunState :=
  { history := historyI0, gcache := [], pcache := [], world := [],
    stats := stats0, file := some historyI0 }

def entryDone : Entry :=
  { processed_at := "2024-01-06T00:00:00", action := "sorted", playlist_id := some "P1",
    reason := "r", track_name := "Old Song", artists := [] }

/-- A ledger that already covers `trackOld2`, with a baseline set. -/
def historyDone : History :=
  { processed_tracks := [("old1", entryDone)], last_run := none, total_runs := 1,
    start_date := some "2024-01-05", start_index := none }

def sDone : RunState :=
  { history := historyDone, gcache := [], pcache := [], world := [],
    stats := stats0, file := some historyDone }

/-- The state for the duplicate-safety witness: the destination `P1` already
contains `trackA`. -/
def sDup : RunState :=
  { history := freshHistory, gcache := [], pcache := [], world := [("P1", ["ta"])],
    stats := stats0, file := none }

def mRockA : MatchResult :=
  { playlist_id := "P1", matched_genre := "rock", rule_genre := "rock",
    match_type := "partial_rule_in_genre" }

/- Basic lemmas about the association-list operations. -/

theorem alGet_alSet {α : Type} (m : List (String × α)) (k k' : String) (v : α) :
    alGet (alSet m k v) k' = if k' = k then some v else alGet m k' := by
  induction m with
  | nil =>
    by_cases h : k' = k
    · subst h; simp [alSet, alGet]
    · have h2 : ¬(k = k') := fun hh => h hh.symm
      simp [alSet, alGet, h, h2]
  | cons kv t ih =>
    by_cases h1 : kv.1 = k
    · by_cases h : k' = k
      · subst h; simp [alSet, alGet, h1]
      · have h2 : ¬(k = k') := fun hh => h hh.symm
        have h3 : ¬(kv.1 = k') := fun hh => h2 (h1.symm.trans hh)
        simp [alSet, alGet, h1, h, h2, h3]
    · by_cases h : k' = k
      · subst h
        simp [alSet, alGet, h1, ih]
      · by_cases h3 : kv.1 = k' <;> simp [alSet, alGet, h1, h, h3, ih]

theorem alHas_alSet {α : Type} (m : List (String × α)) (k k' : String) (v : α) :
    alHas (alSet m k v) k' = ((k' == k) || alHas m k') := by
  induction m with
  | nil => simp [alSet, alHas, BEq.comm]
  | cons kv t ih =>
    by_cases h1 : kv.1 = k
    · simp [alSet, alHas, h1, beq_iff_eq, BEq.comm]
    · simp only [alSet, beq_iff_eq, h1, if_false]
      simp only [alHas, List.any_cons] at ih ⊢
      rw [ih, Bool.or_left_comm]

theorem alHas_eq_isSome {α : Type} (m : List (String × α)) (k : String) :
    alHas m k = (alGet m k).isSome := by
  induction m with
  | nil => simp [alHas, alGet]
  | cons kv t ih =>
    by_cases h : kv.1 = k
    · simp [alHas, alGet, h]
    · have hb : (kv.1 == k) = false := by simp [h]
      simpa [alHas, alGet, hb] using ih

/- Lemmas about the first-match search. -/

theorem findSome_map {α β γ : Type} (f : α → Option β) (g : β → γ) :
    ∀ l : List α, (List.findSome? f l).map g = List.findSome? (fun a => (f a).map g) l
  | [] => rfl
  | a :: t => by
    cases h : f a <;> simp [List.findSome?_cons, h, findSome_map f g t]

theorem match_genres_nil (st : Settings) (rules : List (String × String)) :
    match_genres_to_playlist st rules [] = none := rfl

theorem matchCheck_spec_pointwise (cs sm : Bool) (g : String) (rp : String × String) :
    ((matchCheck cs sm g rp.1).map fun mt =>
        ({ playlist_id := rp.2, matched_genre := g, rule_genre := rp.1,
           match_type := mt } : MatchResult)).map
      (fun m => (m.matched_genre, m.rule_genre, m.playlist_id))
    = if pair_matches_spec cs sm rp.1 g then some (g, rp.1, rp.2) else none := by
  simp only [matchCheck, pair_matches_spec, norm_tag]
  cases sm with
  | false =>
    cases h : ((if cs then rp.1.toList else lowerChars rp.1.toList) ==
        (if cs then g.toList else lowerChars g.toList)) <;> simp [h]
  | true =>
    cases h1 : subAt (if cs then rp.1.toList else lowerChars rp.1.toList)
        (if cs then g.toList else lowerChars g.toList) <;>
      cases h2 : subAt (if cs then g.toList else lowerChars g.toList)
          (if cs then rp.1.toList else lowerChars rp.1.toList) <;>
      simp [h1, h2]

/-- C6: the matcher iterates tags in resolved order (outer) and rules in
configuration order (inner), returning the first tag/rule pair satisfying the
configured match kind — it agrees with the spec-worded nested first-match
search — and on rules [(rock, A), (indie rock, B)] with tags [indie rock]
the result is destination A via rule rock, not B. -/
theorem matcher_first_pair_order :
    (∀ (st : Settings) (rules : List (String × String)) (tags : List String),
      (match_genres_to_playlist st rules tags).map
          (fun m => (m.matched_genre, m.rule_genre, m.playlist_id))
        = rule_match_spec st rules tags)
    ∧ match_genres_to_playlist { case_sensitive := false, sub_match := true }
        [("rock", "A"), ("indie rock", "B")] ["indie rock"]
      = some { playlist_id := "A", matched_genre := "indie rock", rule_genre := "rock",
               match_type := "partial_rule_in_genre" } := by
  constructor
  · intro st rules tags
    unfold match_genres_to_playlist rule_match_spec
    rw [findSome_map]
    congr 1
    funext g
    rw [findSome_map]
    congr 1
    funext rp
    exact matchCheck_spec_pointwise st.case_sensitive st.sub_match g rp
  · decide

/-- C7: under the default match kind the pair matches exactly when the
case-normalized rule tag is a substring of the item tag or the item tag is a
substring of the rule tag; in particular tag pop matches rule dream pop and
tag dream pop matches rule pop. -/
theorem match_kind_bidirectional_substring :
    (∀ (cs : Bool) (g r : String),
      (matchCheck cs true g r).isSome
        = (subAt (norm_tag cs r) (norm_tag cs g) || subAt (norm_tag cs g) (norm_tag cs r)))
    ∧ (matchCheck false true "pop" "dream pop").isSome = true
    ∧ (matchCheck false true "dream pop" "pop").isSome = true := by
  refine ⟨?_, by decide, by decide⟩
  intro cs g r
  simp only [matchCheck, norm_tag]
  cases h1 : subAt (if cs then r.toList else lowerChars r.toList)
      (if cs then g.toList else lowerChars g.toList) <;>
    cases h2 : subAt (if cs then g.toList else lowerChars g.toList)
        (if cs then r.toList else lowerChars r.toList) <;>
    simp [h1, h2]

/-- C3: the idempotence guard of the baseline initializer relies on Python
truthiness, so a ledger whose baseline was set in index mode with index 0 is
not recognized: a subsequent `date`-mode call proceeds, sets `start_date`,
marks an item as baseline and bumps the run counter, instead of being a
no-op. -/
theorem baseline_guard_fails_on_index_zero :
    historyI0.start_index = some 0
    ∧ baselineSet historyI0 = false
    ∧ (init_baseline envOld sI0 "date" (some "2024-01-02") none).history.start_date
        = some "2024-01-02"
    ∧ alHas (init_baseline envOld sI0 "date" (some "2024-01-02") none).history.processed_tracks
        "old1" = true
    ∧ (init_baseline envOld sI0 "date" (some "2024-01-02") none).history.total_runs = 2 := by
  decide

/-- C4: when the resolved genres of a track match a rule and the matched
destination's membership set already contains the track id, `process_track`
returns outcome `duplicate`, leaves the remote playlists untouched (no add
call is issued), and reports the matched destination. -/
theorem duplicate_no_write (cfg : Config) (env : Env) (s : RunState) (t : Track)
    (m : MatchResult)
    (hid : (t.id == "") = false)
    (hmatch : match_genres_to_playlist cfg.settings cfg.rules
        (get_track_genres env s.gcache t).2 = some m)
    (hdup : ((get_playlist_tracks_set env s.world s.pcache m.playlist_id).2).contains t.id
        = true) :
    (process_track cfg env s t).2.action = "duplicate"
    ∧ (process_track cfg env s t).1.world = s.world
    ∧ (process_track cfg env s t).2.playlist_id = some m.playlist_id := by
  have hne : (get_track_genres env s.gcache t).2.isEmpty = false := by
    cases hg : (get_track_genres env s.gcache t).2 with
    | nil => rw [hg] at hmatch; simp [match_genres_to_playlist] at hmatch
    | cons a l => simp
  simp only [process_track, hid, hne, hmatch, hdup]
  simp

/-- Witness for C4 at a concrete input: destination P1 already contains the
track, so the outcome is duplicate and the playlists are unchanged. -/
theorem duplicate_no_write_witness :
    (process_track cfgRock envBase sDup trackA2).2.action = "duplicate"
    ∧ (process_track cfgRock envBase sDup trackA2).1.world = sDup.world
    ∧ (process_track cfgRock envBase sDup trackA2).2.playlist_id = some mRockA.playlist_id :=
  duplicate_no_write cfgRock envBase sDup trackA2 mRockA (by decide) (by decide) (by decide)

/- Frame lemmas: the per-track pipeline never touches the ledger fields other
than `processed_tracks`, never touches the history file, and records exactly
the processed track's id. -/

theorem process_track_history (cfg : Config) (env : Env) (s : RunState) (t : Track) :
    (process_track cfg env s t).1.history = s.history := by
  unfold process_track
  dsimp only
  repeat' split
  all_goals rfl

theorem process_track_file (cfg : Config) (env : Env) (s : RunState) (t : Track) :
    (process_track cfg env s t).1.file = s.file := by
  unfold process_track
  dsimp only
  repeat' split
  all_goals rfl

theorem process_track_action_mem (cfg : Config) (env : Env) (s : RunState) (t : Track) :
    (process_track cfg env s t).2.action
      ∈ (["skipped", "duplicate", "sorted", "error"] : List String) := by
  unfold process_track
  dsimp only
  repeat' split
  all_goals simp

theorem record_get_act (env : Env) (h : History) (tid : String) (r : PResult) (k : String)
    (e : Entry)
    (hget : alGet (record_processing_result env h tid r).processed_tracks k = some e) :
    e.action = r.action ∨ alGet h.processed_tracks k = some e := by
  unfold record_processing_result at hget
  rw [alGet_alSet] at hget
  by_cases hk : k = tid
  · rw [if_pos hk] at hget
    left
    cases hget
    rfl
  · rw [if_neg hk] at hget
    right
    exact hget

theorem procStep_file (cfg : Config) (env : Env) (s : RunState) (t : Track) :
    (procStep cfg env s t).file = s.file := by
  simp only [procStep]
  rw [process_track_file]

theorem procStep_meta (cfg : Config) (env : Env) (s : RunState) (t : Track) :
    (procStep cfg env s t).history.total_runs = s.history.total_runs
    ∧ (procStep cfg env s t).history.last_run = s.history.last_run
    ∧ (procStep cfg env s t).history.start_date = s.history.start_date
    ∧ (procStep cfg env s t).history.start_index = s.history.start_index := by
  simp only [procStep, record_processing_result]
  rw [process_track_history]
  exact ⟨rfl, rfl, rfl, rfl⟩

theorem procStep_has (cfg : Config) (env : Env) (s : RunState) (t : Track) (k : String) :
    alHas (procStep cfg env s t).history.processed_tracks k
      = ((k == t.id) || alHas s.history.processed_tracks k) := by
  simp only [procStep, record_processing_result]
  rw [alHas_alSet, process_track_history]

theorem procStep_get_act (cfg : Config) (env : Env) (s : RunState) (t : Track) (k : String)
    (e : Entry)
    (hget : alGet (procStep cfg env s t).history.processed_tracks k = some e) :
    e.action ∈ (["skipped", "duplicate", "sorted", "error"] : List String)
    ∨ alGet s.history.processed_tracks k = some e := by
  simp only [procStep] at hget
  rcases record_get_act _ _ _ _ _ _ hget with hact | hold
  · left
    rw [hact]
    exact process_track_action_mem cfg env _ t
  · right
    rw [process_track_history] at hold
    exact hold

theorem procLoop_file (cfg : Config) (env : Env) :
    ∀ (ts : List Track) (s : RunState), (procLoop cfg env s ts).file = s.file
  | [], _ => rfl
  | t :: ts, s => by
    show (procLoop cfg env (procStep cfg env s t) ts).file = s.file
    rw [procLoop_file cfg env ts (procStep cfg env s t), procStep_file]

theorem procLoop_meta (cfg : Config) (env : Env) :
    ∀ (ts : List Track) (s : RunState),
      (procLoop cfg env s ts).history.total_runs = s.history.total_runs
      ∧ (procLoop cfg env s ts).history.last_run = s.history.last_run
      ∧ (procLoop cfg env s ts).history.start_date = s.history.start_date
      ∧ (procLoop cfg env s ts).history.start_index = s.history.start_index
  | [], _ => ⟨rfl, rfl, rfl, rfl⟩
  | t :: ts, s => by
    have h1 := procLoop_meta cfg env ts (procStep cfg env s t)
    have h2 := procStep_meta cfg env s t
    show (procLoop cfg env (procStep cfg env s t) ts).history.total_runs = _
      ∧ (procLoop cfg env (procStep cfg env s t) ts).history.last_run = _
      ∧ (procLoop cfg env (procStep cfg env s t) ts).history.start_date = _
      ∧ (procLoop cfg env (procStep cfg env s t) ts).history.start_index = _
    exact ⟨h1.1.trans h2.1, h1.2.1.trans h2.2.1, h1.2.2.1.trans h2.2.2.1,
      h1.2.2.2.trans h2.2.2.2⟩

theorem procLoop_has (cfg : Config) (env : Env) :
    ∀ (ts : List Track) (s : RunState) (k : String),
      alHas (procLoop cfg env s ts).history.processed_tracks k
        = (ts.any (fun t => k == t.id) || alHas s.history.processed_tracks k)
  | [], _, _ => by simp [procLoop]
  | t :: ts, s, k => by
    show alHas (procLoop cfg env (procStep cfg env s t) ts).history.processed_tracks k = _
    rw [procLoop_has cfg env ts (procStep cfg env s t) k, procStep_has]
    simp [Bool.or_left_comm, Bool.or_assoc]

theorem procLoop_get_act (cfg : Config) (env : Env) :
    ∀ (ts : List Track) (s : RunState) (k : String) (e : Entry),
      alGet (procLoop cfg env s ts).history.processed_tracks k = some e →
      e.action ∈ (["skipped", "duplicate", "sorted", "error"] : List String)
      ∨ alGet s.history.processed_tracks k = some e
  | [], _, _, _ => fun hget => Or.inr hget
  | t :: ts, s, k, e => by
    intro hget
    have hget2 : alGet (procLoop cfg env (procStep cfg env s t) ts).history.processed_tracks k
        = some e := hget
    rcases procLoop_get_act cfg env ts (procStep cfg env s t) k e hget2 with hact | hold
    · exact Or.inl hact
    · exact procStep_get_act cfg env s t k e hold

/- Frame lemmas for saving and baseline initialization. -/

theorem save_processed (env : Env) (s : RunState) :
    (save_processing_history env s).history.processed_tracks
      = s.history.processed_tracks := by
  unfold save_processing_history
  split <;> rfl

theorem save_total (env : Env) (s : RunState) :
    (save_processing_history env s).history.total_runs = s.history.total_runs + 1 := by
  unfold save_processing_history
  split <;> rfl

theorem save_last (env : Env) (s : RunState) :
    (save_processing_history env s).history.last_run = some env.now := by
  unfold save_processing_history
  split <;> rfl

theorem save_file_writeOk (env : Env) (s : RunState) (hw : env.writeOk = true) :
    (save_processing_history env s).file = some ((save_processing_history env s).history) := by
  simp [save_processing_history, hw]

theorem save_file_noWrite (env : Env) (s : RunState) (hw : env.writeOk = false) :
    (save_processing_history env s).file = s.file := by
  simp [save_processing_history, hw]

theorem init_sync (env : Env) (s : RunState) (m : String) (sd : Option String)
    (si : Option Nat) (hb : baselineSet s.history = false) (hw : env.writeOk = true) :
    (init_baseline env s m sd si).file = some ((init_baseline env s m sd si).history) := by
  simp only [init_baseline, hb, Bool.false_eq_true, if_false]
  repeat' split
  all_goals simp [save_processing_history, hw]

theorem get_all_pages_only (env env2 : Env) (hp : env2.pages = env.pages) :
    get_all_liked_songs env2 = get_all_liked_songs env := by
  unfold get_all_liked_songs
  rw [hp]

theorem run_shape_process (cfg : Config) (env : Env) (s : RunState)
    (im sdp : Option String) (sip : Option Nat)
    (hr : cfg.rules.isEmpty = false)
    (hg : (strTruthy im && !(baselineSet s.history)) = false)
    (ha : (get_all_liked_songs env).isEmpty = false)
    (hn : (filter_new_tracks s.history (get_all_liked_songs env)).isEmpty = false) :
    run cfg env s im sdp sip = Except.ok
      (save_processing_history env (procLoop cfg env
        { s with stats :=
            { s.stats with
              total_liked := (get_all_liked_songs env).length
              new_tracks := (filter_new_tracks s.history (get_all_liked_songs env)).length } }
        (filter_new_tracks s.history (get_all_liked_songs env))),
      (save_processing_history env (procLoop cfg env
        { s with stats :=
            { s.stats with
              total_liked := (get_all_liked_songs env).length
              new_tracks := (filter_new_tracks s.history (get_all_liked_songs env)).length } }
        (filter_new_tracks s.history (get_all_liked_songs env)))).stats) := by
  simp [run, hr, hg, ha, hn]

/-- C10 (amended): when the run performs no baseline initialization (none
requested, or the baseline is already set) and the diff against the ledger
finds zero new items, the run returns early without persisting: the in-memory
ledger and the history file are left exactly as they were (in particular the
last-run timestamp and the total-run counter are not updated). -/
theorem zero_new_no_persist (cfg : Config) (env : Env) (s : RunState)
    (im sdp : Option String) (sip : Option Nat)
    (hg : strTruthy im = false ∨ baselineSet s.history = true)
    (hf : filter_new_tracks s.history (get_all_liked_songs env) = []) :
    exceptOk (run cfg env s im sdp sip) = true
    ∧ (runState (run cfg env s im sdp sip)).history = s.history
    ∧ (runState (run cfg env s im sdp sip)).file = s.file := by
  have hgb : (strTruthy im && !(baselineSet s.history)) = false := by
    rcases hg with h | h <;> simp [h]
  by_cases hr : cfg.rules.isEmpty
  · simp [run, hr, exceptOk, runState]
  · by_cases ha : (get_all_liked_songs env).isEmpty
    · simp [run, hr, hgb, ha, exceptOk, runState]
    · simp [run, hr, hgb, ha, hf, exceptOk, runState]


/-- C2 (amended): a ledger save failure is caught and logged rather than
surfaced: a run that processes new items with a failing history write still
completes normally, the on-disk ledger file is left unchanged, while the
in-memory run counter and last-run timestamp were already bumped before the
write was attempted. -/
theorem save_failure_swallowed (cfg : Config) (env : Env) (s : RunState)
    (hw : env.writeOk = false)
    (hr : cfg.rules.isEmpty = false)
    (hn : (filter_new_tracks s.history (get_all_liked_songs env)).isEmpty = false) :
    exceptOk (run cfg env s none none none) = true
    ∧ (runState (run cfg env s none none none)).file = s.file
    ∧ (runState (run cfg env s none none none)).history.total_runs = s.history.total_runs + 1
    ∧ (runState (run cfg env s none none none)).history.last_run = some env.now := by
  have ha : (get_all_liked_songs env).isEmpty = false := by
    cases hx : get_all_liked_songs env
    · rw [hx] at hn; simp [filter_new_tracks] at hn
    · simp
  have hg : (strTruthy (none : Option String) && !(baselineSet s.history)) = false := by
    simp [strTruthy]
  rw [run_shape_process cfg env s none none none hr hg ha hn]
  simp only [runState, exceptOk]
  refine ⟨trivial, ?_, ?_, ?_⟩
  · rw [save_file_noWrite _ _ hw, procLoop_file]
  · rw [save_total, (procLoop_meta cfg env _ _).1]
  · rw [save_last]

/-- C9: every new item processed during a run (part of the enumeration, with
a truthy id, not yet in the ledger) has its outcome recorded in the ledger
under its id — one of sorted, duplicate, skipped or error — and is therefore
excluded from the new-item diff of the next enumeration, never to be
reprocessed automatically. -/
theorem outcome_recorded_and_excluded (cfg : Config) (env : Env) (s : RunState) (t : Track)
    (im sdp : Option String) (sip : Option Nat)
    (hr : cfg.rules.isEmpty = false)
    (hg : strTruthy im = false ∨ baselineSet s.history = true)
    (hmem : t ∈ get_all_liked_songs env)
    (hid : (t.id == "") = false)
    (hnew : alHas s.history.processed_tracks t.id = false) :
    exceptOk (run cfg env s im sdp sip) = true
    ∧ alHas (runState (run cfg env s im sdp sip)).history.processed_tracks t.id = true
    ∧ actionRecorded (alGet (runState (run cfg env s im sdp sip)).history.processed_tracks t.id)
        = true
    ∧ t ∉ filter_new_tracks (runState (run cfg env s im sdp sip)).history
        (get_all_liked_songs env) := by
  have hgb : (strTruthy im && !(baselineSet s.history)) = false := by
    rcases hg with h | h <;> simp [h]
  have ha : (get_all_liked_songs env).isEmpty = false := by
    cases hx : get_all_liked_songs env
    · rw [hx] at hmem; simp at hmem
    · simp
  have htnew : t ∈ filter_new_tracks s.history (get_all_liked_songs env) := by
    refine List.mem_filter.mpr ⟨hmem, ?_⟩
    simp [hid, hnew]
  have hn : (filter_new_tracks s.history (get_all_liked_songs env)).isEmpty = false := by
    cases hx : filter_new_tracks s.history (get_all_liked_songs env)
    · rw [hx] at htnew; simp at htnew
    · simp
  rw [run_shape_process cfg env s im sdp sip hr hgb ha hn]
  simp only [runState, exceptOk]
  have hhas : alHas (save_processing_history env (procLoop cfg env
      { s with stats :=
          { s.stats with
            total_liked := (get_all_liked_songs env).length
            new_tracks := (filter_new_tracks s.history (get_all_liked_songs env)).length } }
      (filter_new_tracks s.history (get_all_liked_songs env)))).history.processed_tracks t.id
      = true := by
    rw [save_processed, procLoop_has]
    have hany : (filter_new_tracks s.history (get_all_liked_songs env)).any
        (fun t' => t.id == t'.id) = true :=
      List.any_eq_true.mpr ⟨t, htnew, by simp⟩
    rw [hany]
    simp
  refine ⟨trivial, hhas, ?_, ?_⟩
  · have hsome : (alGet (save_processing_history env (procLoop cfg env
        { s with stats :=
            { s.stats with
              total_liked := (get_all_liked_songs env).length
              new_tracks := (filter_new_tracks s.history (get_all_liked_songs env)).length } }
        (filter_new_tracks s.history (get_all_liked_songs env)))).history.processed_tracks
        t.id).isSome = true := by
      rw [← alHas_eq_isSome]
      exact hhas
    obtain ⟨e, he⟩ := Option.isSome_iff_exists.mp hsome
    have he2 : alGet (procLoop cfg env
        { s with stats :=
            { s.stats with
              total_liked := (get_all_liked_songs env).length
              new_tracks := (filter_new_tracks s.history (get_all_liked_songs env)).length } }
        (filter_new_tracks s.history (get_all_liked_songs env))).history.processed_tracks
        t.id = some e := by
      rw [save_processed] at he
      exact he
    have hact := procLoop_get_act cfg env
        (filter_new_tracks s.history (get_all_liked_songs env))
        { s with stats :=
            { s.stats with
              total_liked := (get_all_liked_songs env).length
              new_tracks := (filter_new_tracks s.history (get_all_liked_songs env)).length } }
        t.id e he2
    rcases hact with h1 | h2
    · rw [he]
      have h1x : e.action = "skipped" ∨ e.action = "duplicate" ∨ e.action = "sorted"
          ∨ e.action = "error" := by simpa using h1
      rcases h1x with h | h | h | h <;> simp [actionRecorded, h]
    · exfalso
      have habs : alHas s.history.processed_tracks t.id = true := by
        rw [alHas_eq_isSome]
        have h2' : alGet s.history.processed_tracks t.id = some e := h2
        rw [h2']
        rfl
      rw [hnew] at habs
      cases habs
  · intro hmemf
    have hcond := (List.mem_filter.mp hmemf).2
    rw [hhas] at hcond
    simp at hcond


theorem run_never_errors (cfg : Config) (env : Env) (s : RunState)
    (im sdp : Option String) (sip : Option Nat) :
    exceptOk (run cfg env s im sdp sip) = true := by
  unfold run
  dsimp only
  repeat' split
  all_goals rfl

theorem getAllLoop_stops_at_error (e : Unit) :
    ∀ (itss : List (List PageItem)) (rest : List (Except Unit (List PageItem)))
      (acc : List Track),
      (∀ its ∈ itss, its ≠ []) →
      getAllLikedSongsLoop ((itss.map Except.ok) ++ (Except.error e :: rest)) acc
        = itss.foldl (fun a its => a ++ extractPage its) acc
  | [], rest, acc, _ => rfl
  | its :: itss, rest, acc, h => by
    have hne : its ≠ [] := h its (List.mem_cons_self its itss)
    have hni : its.isEmpty = false := by
      cases its
      · exact absurd rfl hne
      · rfl
    have hstep : getAllLikedSongsLoop (((its :: itss).map Except.ok)
          ++ (Except.error e :: rest)) acc
        = getAllLikedSongsLoop ((itss.map Except.ok) ++ (Except.error e :: rest))
            (acc ++ extractPage its) := by
      show getAllLikedSongsLoop (Except.ok its
          :: ((itss.map Except.ok) ++ (Except.error e :: rest))) acc = _
      simp [getAllLikedSongsLoop, hni]
    rw [hstep, getAllLoop_stops_at_error e itss rest (acc ++ extractPage its)
      (fun x hx => h x (List.mem_cons_of_mem _ hx))]
    rfl

/-- C1 counterexample: with a failing second page, the enumeration returns
the partial list fetched so far and the run does not abort — it completes,
diffs the partial enumeration against the ledger and processes it: the track
from the first page is recorded as processed and the ledger is saved. -/
theorem partial_enumeration_is_processed :
    get_all_liked_songs envPageFail = [trackA2]
    ∧ exceptOk (run cfgRock envPageFail s0Fresh none none none) = true
    ∧ (runStats (run cfgRock envPageFail s0Fresh none none none)).processed = 1
    ∧ alHas (runState (run cfgRock envPageFail s0Fresh none none none)).history.processed_tracks
        "ta" = true
    ∧ (runState (run cfgRock envPageFail s0Fresh none none none)).history.total_runs = 1 := by
  decide

/-- C2 counterexample: a run in which saving the ledger raises does not
abort — it completes normally with full statistics (one track processed and
sorted), leaving the file untouched while the in-memory counter advanced. -/
theorem save_failure_run_completes_normally :
    envNoWrite.writeOk = false
    ∧ exceptOk (run cfgRock envNoWrite s0Fresh none none none) = true
    ∧ (runState (run cfgRock envNoWrite s0Fresh none none none)).file = none
    ∧ (runState (run cfgRock envNoWrite s0Fresh none none none)).history.total_runs = 1
    ∧ (runStats (run cfgRock envNoWrite s0Fresh none none none)).sorted = 1 := by
  decide

/-- C10 counterexample: a run invoked with date-mode baseline
initialization finds zero new items after diffing, yet the ledger file was
written and the total-run counter bumped by the baseline initializer before
the early return, so such a run does not leave the ledger file untouched. -/
theorem init_run_persists_on_zero_new :
    s0Fresh.file = none
    ∧ exceptOk (run cfgRock envOld s0Fresh (some "date") none none) = true
    ∧ (runStats (run cfgRock envOld s0Fresh (some "date") none none)).new_tracks = 0
    ∧ (runState (run cfgRock envOld s0Fresh (some "date") none none)).history.total_runs = 1
    ∧ (runState (run cfgRock envOld s0Fresh (some "date") none none)).file.isSome = true := by
  decide

/-- Witness for C9 at a concrete input where the add call fails: the track
is recorded with outcome `error` and excluded from the next diff. -/
theorem outcome_recorded_and_excluded_witness :
    exceptOk (run cfgRock envAddFail s0Fresh none none none) = true
    ∧ alHas (runState (run cfgRock envAddFail s0Fresh none none none)).history.processed_tracks
        trackA2.id = true
    ∧ actionRecorded (alGet (runState
        (run cfgRock envAddFail s0Fresh none none none)).history.processed_tracks trackA2.id)
        = true
    ∧ trackA2 ∉ filter_new_tracks
        (runState (run cfgRock envAddFail s0Fresh none none none)).history
        (get_all_liked_songs envAddFail)
    ∧ (alGet (runState (run cfgRock envAddFail s0Fresh none none none)).history.processed_tracks
        trackA2.id).map Entry.action = some "error" :=
  ⟨(outcome_recorded_and_excluded cfgRock envAddFail s0Fresh trackA2 none none none (by decide) (Or.inl rfl) (by decide)
      (by decide) (by decide)).1,
   (outcome_recorded_and_excluded cfgRock envAddFail s0Fresh trackA2 none none none (by decide) (Or.inl rfl) (by decide)
      (by decide) (by decide)).2.1,
   (outcome_recorded_and_excluded cfgRock envAddFail s0Fresh trackA2 none none none (by decide) (Or.inl rfl) (by decide)
      (by decide) (by decide)).2.2.1,
   (outcome_recorded_and_excluded cfgRock envAddFail s0Fresh trackA2 none none none (by decide) (Or.inl rfl) (by decide)
      (by decide) (by decide)).2.2.2,
   by decide⟩


theorem run_sync (cfg : Config) (env : Env) (s0 : RunState) (im sdp : Option String)
    (sip : Option Nat) (hw : env.writeOk = true)
    (hs : s0.history = load_processing_history s0.file) :
    (runState (run cfg env s0 im sdp sip)).history
      = load_processing_history (runState (run cfg env s0 im sdp sip)).file := by
  by_cases hr : cfg.rules.isEmpty
  · simpa [run, hr, runState] using hs
  · by_cases hg : (strTruthy im && !(baselineSet s0.history)) = true
    · have hb0 : baselineSet s0.history = false := by
        have := (Bool.and_eq_true _ _).mp hg
        simpa using this.2
      have hfile := init_sync env s0 (im.getD "") sdp sip hb0 hw
      by_cases ha : (get_all_liked_songs env).isEmpty
      · simp only [run, hr, hg, ha, runState]
        simp only [Bool.false_eq_true, if_false, if_true]
        rw [hfile]
        rfl
      · by_cases hn : (filter_new_tracks
            (init_baseline env s0 (im.getD "") sdp sip).history
            (get_all_liked_songs env)).isEmpty
        · simp [run, hr, hg, ha, hn, runState]
          rw [hfile]
          rfl
        · simp [run, hr, hg, ha, hn, runState]
          rw [save_file_writeOk _ _ hw]
          rfl
    · have hg2 : (strTruthy im && !(baselineSet s0.history)) = false := by
        cases hx : (strTruthy im && !(baselineSet s0.history))
        · rfl
        · exact absurd hx hg
      by_cases ha : (get_all_liked_songs env).isEmpty
      · simpa [run, hr, hg2, ha, runState] using hs
      · by_cases hn : (filter_new_tracks s0.history (get_all_liked_songs env)).isEmpty
        · simpa [run, hr, hg2, ha, hn, runState] using hs
        · simp [run, hr, hg2, ha, hn, runState]
          rw [save_file_writeOk _ _ hw]
          rfl

theorem not_new_cases (hI : History) (t : Track)
    (h : (!(t.id == "") && !(alHas hI.processed_tracks t.id)) = false) :
    (t.id == "") = true ∨ alHas hI.processed_tracks t.id = true := by
  cases hid : (t.id == "") <;> cases hhas : alHas hI.processed_tracks t.id <;> simp_all

theorem loop_covers (cfg : Config) (env : Env) (s3 : RunState) (new : List Track) (t : Track)
    (h : t ∈ new ∨ alHas s3.history.processed_tracks t.id = true) :
    alHas (save_processing_history env (procLoop cfg env s3 new)).history.processed_tracks t.id
      = true := by
  rw [save_processed, procLoop_has]
  rcases h with h | h
  · have hany : new.any (fun t' => t.id == t'.id) = true :=
      List.any_eq_true.mpr ⟨t, h, by simp⟩
    rw [hany]
    rfl
  · rw [h]
    simp

theorem run_covers (cfg : Config) (env : Env) (s0 : RunState) (im sdp : Option String)
    (sip : Option Nat) (hr : cfg.rules.isEmpty = false) :
    ∀ t ∈ get_all_liked_songs env,
      (t.id == "") = true
      ∨ alHas (runState (run cfg env s0 im sdp sip)).history.processed_tracks t.id = true := by
  intro t ht
  have ha : (get_all_liked_songs env).isEmpty = false := by
    cases hx : get_all_liked_songs env
    · rw [hx] at ht; simp at ht
    · simp
  by_cases hg : (strTruthy im && !(baselineSet s0.history)) = true
  · by_cases hn : (filter_new_tracks
        (init_baseline env s0 (im.getD "") sdp sip).history
        (get_all_liked_songs env)).isEmpty
    · have hnil := List.isEmpty_iff.mp hn
      have hcond := List.filter_eq_nil_iff.mp hnil t ht
      have hcond2 : (!(t.id == "") &&
          !(alHas (init_baseline env s0 (im.getD "") sdp sip).history.processed_tracks t.id))
          = false := by
        cases hx : (!(t.id == "") &&
            !(alHas (init_baseline env s0 (im.getD "") sdp sip).history.processed_tracks t.id))
        · rfl
        · exact absurd hx hcond
      rcases not_new_cases _ t hcond2 with h1 | h1
      · exact Or.inl h1
      · refine Or.inr ?_
        simp [run, hr, hg, ha, hn, runState]
        exact h1
    · by_cases hcond : (!(t.id == "") &&
          !(alHas (init_baseline env s0 (im.getD "") sdp sip).history.processed_tracks t.id))
          = true
      · refine Or.inr ?_
        simp [run, hr, hg, ha, hn, runState]
        exact loop_covers cfg env _ _ t (Or.inl (List.mem_filter.mpr ⟨ht, hcond⟩))
      · have hcond2 : (!(t.id == "") &&
            !(alHas (init_baseline env s0 (im.getD "") sdp sip).history.processed_tracks t.id))
            = false := by
          cases hx : (!(t.id == "") &&
              !(alHas (init_baseline env s0 (im.getD "") sdp sip).history.processed_tracks t.id))
          · rfl
          · exact absurd hx hcond
        rcases not_new_cases _ t hcond2 with h1 | h1
        · exact Or.inl h1
        · refine Or.inr ?_
          simp [run, hr, hg, ha, hn, runState]
          exact loop_covers cfg env _ _ t (Or.inr h1)
  · have hg2 : (strTruthy im && !(baselineSet s0.history)) = false := by
      cases hx : (strTruthy im && !(baselineSet s0.history))
      · rfl
      · exact absurd hx hg
    by_cases hn : (filter_new_tracks s0.history (get_all_liked_songs env)).isEmpty
    · have hnil := List.isEmpty_iff.mp hn
      have hcond := List.filter_eq_nil_iff.mp hnil t ht
      have hcond2 : (!(t.id == "") && !(alHas s0.history.processed_tracks t.id)) = false := by
        cases hx : (!(t.id == "") && !(alHas s0.history.processed_tracks t.id))
        · rfl
        · exact absurd hx hcond
      rcases not_new_cases _ t hcond2 with h1 | h1
      · exact Or.inl h1
      · refine Or.inr ?_
        simp [run, hr, hg2, ha, hn, runState]
        exact h1
    · by_cases hcond : (!(t.id == "") && !(alHas s0.history.processed_tracks t.id)) = true
      · refine Or.inr ?_
        simp [run, hr, hg2, ha, hn, runState]
        exact loop_covers cfg env _ _ t (Or.inl (List.mem_filter.mpr ⟨ht, hcond⟩))
      · have hcond2 : (!(t.id == "") && !(alHas s0.history.processed_tracks t.id)) = false := by
          cases hx : (!(t.id == "") && !(alHas s0.history.processed_tracks t.id))
          · rfl
          · exact absurd hx hcond
        rcases not_new_cases _ t hcond2 with h1 | h1
        · exact Or.inl h1
        · refine Or.inr ?_
          simp [run, hr, hg2, ha, hn, runState]
          exact loop_covers cfg env _ _ t (Or.inr h1)


/-- C5: running the orchestrator twice in succession with no new items
appearing between the runs (the second enumeration sees the same pages), the
first run persisting normally and the second being a fresh instance loading
the persisted file, yields zero sorted items on the second run and leaves
both the persisted ledger file and the in-memory ledger exactly equal to the
state after the first run. -/
theorem run_twice_no_new_sorted (cfg : Config) (env1 env2 : Env) (s0 : RunState)
    (im sdp : Option String) (sip : Option Nat)
    (hw : env1.writeOk = true)
    (hp : env2.pages = env1.pages)
    (hs : s0.history = load_processing_history s0.file) :
    exceptOk (run cfg env2 (fresh_instance (runState (run cfg env1 s0 im sdp sip)).file
        (runState (run cfg env1 s0 im sdp sip)).world) none none none) = true
    ∧ (runStats (run cfg env2 (fresh_instance (runState (run cfg env1 s0 im sdp sip)).file
        (runState (run cfg env1 s0 im sdp sip)).world) none none none)).sorted = 0
    ∧ (runState (run cfg env2 (fresh_instance (runState (run cfg env1 s0 im sdp sip)).file
        (runState (run cfg env1 s0 im sdp sip)).world) none none none)).file
        = (runState (run cfg env1 s0 im sdp sip)).file
    ∧ (runState (run cfg env2 (fresh_instance (runState (run cfg env1 s0 im sdp sip)).file
        (runState (run cfg env1 s0 im sdp sip)).world) none none none)).history
        = (runState (run cfg env1 s0 im sdp sip)).history := by
  have hsync := run_sync cfg env1 s0 im sdp sip hw hs
  have hall : get_all_liked_songs env2 = get_all_liked_songs env1 :=
    get_all_pages_only env1 env2 hp
  set s1 := runState (run cfg env1 s0 im sdp sip) with hs1
  by_cases hr : cfg.rules.isEmpty
  · simp [run, hr, runState, runStats, exceptOk, fresh_instance, stats0, ← hsync]
  · by_cases ha : (get_all_liked_songs env1).isEmpty
    · simp [run, hr, hall, ha, runState, runStats, exceptOk, fresh_instance, stats0,
        strTruthy, ← hsync]
    · have hrf : cfg.rules.isEmpty = false := by
        cases hx : cfg.rules.isEmpty
        · rfl
        · exact absurd hx hr
      have hcov := run_covers cfg env1 s0 im sdp sip hrf
      have hfe : filter_new_tracks s1.history (get_all_liked_songs env1) = [] := by
        apply List.filter_eq_nil_iff.mpr
        intro t ht
        rcases hcov t ht with h1 | h1
        · simp [h1]
        · simp [h1]
      simp [run, hr, hall, ha, runState, runStats, exceptOk, fresh_instance, stats0,
        strTruthy, ← hsync, hfe]


theorem dateMarkStep_has (env : Env) (sd : String) (h : History) (t : Track) (k : String) :
    alHas (dateMarkStep env sd h t).processed_tracks k
      = (((!(t.liked_at == "") && lexLt (t.liked_at.toList.take 10) sd.toList)
          && (!(t.id == "") && (k == t.id))) || alHas h.processed_tracks k) := by
  unfold dateMarkStep
  by_cases hc : (!(t.liked_at == "") && lexLt (t.liked_at.toList.take 10) sd.toList) = true
  · rw [if_pos hc, hc]
    unfold mark_as_baseline_processed
    by_cases h2 : (t.id == "") = true
    · rw [if_pos h2, h2]
      simp
    · have h2f : (t.id == "") = false := by
        cases hx : (t.id == "")
        · rfl
        · exact absurd hx h2
      rw [if_neg h2]
      simp [alHas_alSet, h2f]
  · have hcf : (!(t.liked_at == "") && lexLt (t.liked_at.toList.take 10) sd.toList) = false := by
      cases hx : (!(t.liked_at == "") && lexLt (t.liked_at.toList.take 10) sd.toList)
      · rfl
      · exact absurd hx hc
    rw [if_neg hc, hcf]
    simp

theorem dateFold_has (env : Env) (sd : String) :
    ∀ (ts : List Track) (h : History) (k : String),
      alHas (ts.foldl (dateMarkStep env sd) h).processed_tracks k
        = (ts.any (fun t => (!(t.liked_at == "") && lexLt (t.liked_at.toList.take 10) sd.toList)
            && (!(t.id == "") && (k == t.id))) || alHas h.processed_tracks k)
  | [], h, k => by simp
  | t :: ts, h, k => by
    show alHas ((ts.foldl (dateMarkStep env sd) (dateMarkStep env sd h t))).processed_tracks k = _
    rw [dateFold_has env sd ts (dateMarkStep env sd h t) k, dateMarkStep_has]
    simp [Bool.or_left_comm, Bool.or_assoc]

/-- C8: in date-mode baseline initialization with a nonempty parameter p, a
track of the enumeration (truthy id and timestamp, not yet in the ledger, and
with ids unique across the enumeration) is marked baseline if and only if its
acquisition timestamp truncated to the calendar date is strictly
(lexicographically) earlier than p; the boundary date itself is excluded. -/
theorem date_baseline_strict_boundary (env : Env) (s : RunState) (p : String) (t : Track)
    (hp : (p == "") = false)
    (hb : baselineSet s.history = false)
    (hh : alHas s.history.processed_tracks t.id = false)
    (hid : (t.id == "") = false)
    (hla : (t.liked_at == "") = false)
    (hmem : t ∈ get_all_liked_songs env)
    (huni : ∀ t' ∈ get_all_liked_songs env, t'.id = t.id → t' = t) :
    (alHas (init_baseline env s "date" (some p) none).history.processed_tracks t.id = true
      ↔ lexLt (t.liked_at.toList.take 10) p.toList = true) := by
  have hred : (init_baseline env s "date" (some p) none).history.processed_tracks
      = ((get_all_liked_songs env).foldl (dateMarkStep env p)
          { s.history with start_date := some p }).processed_tracks := by
    simp only [init_baseline, hb, Bool.false_eq_true, if_false]
    simp [strTruthy, hp, save_processed]
  rw [hred, dateFold_has]
  have hbase : alHas ({ s.history with start_date := some p } : History).processed_tracks t.id
      = alHas s.history.processed_tracks t.id := rfl
  rw [hbase, hh, Bool.or_false]
  constructor
  · intro hany
    obtain ⟨t', ht'mem, ht'c⟩ := List.any_eq_true.mp hany
    have hc1 := (Bool.and_eq_true _ _).mp ht'c
    have hc2 := (Bool.and_eq_true _ _).mp hc1.2
    have hideq : t'.id = t.id := (beq_iff_eq.mp hc2.2).symm
    have heq : t' = t := huni t' ht'mem hideq
    subst heq
    exact ((Bool.and_eq_true _ _).mp hc1.1).2
  · intro hlt
    refine List.any_eq_true.mpr ⟨t, hmem, ?_⟩
    simp [hla, hid]
    exact hlt



/-- C1 (amended): a failing page fetch during enumeration is not fatal — the
pagination loop stops at the failing page and returns exactly the tracks of
the pages already fetched, and the orchestrator never aborts: every run
returns a normal result. -/
theorem page_failure_truncates_and_run_continues :
    (∀ (e : Unit) (itss : List (List PageItem)) (rest : List (Except Unit (List PageItem)))
        (acc : List Track),
      (∀ its ∈ itss, its ≠ []) →
      getAllLikedSongsLoop ((itss.map Except.ok) ++ (Except.error e :: rest)) acc
        = itss.foldl (fun a its => a ++ extractPage its) acc)
    ∧ (∀ (cfg : Config) (env : Env) (s : RunState) (im sdp : Option String) (sip : Option Nat),
      exceptOk (run cfg env s im sdp sip) = true) :=
  ⟨fun e itss rest acc h => getAllLoop_stops_at_error e itss rest acc h,
   fun cfg env s im sdp sip => run_never_errors cfg env s im sdp sip⟩

/-- Witness for C1 at a concrete input: one good page followed by a failing
page yields exactly the first page's track, and the run on such an
environment completes normally. -/
theorem page_failure_truncates_and_run_continues_witness :
    getAllLikedSongsLoop (([[itemA]].map Except.ok) ++ (Except.error () :: [])) []
      = [[itemA]].foldl (fun a its => a ++ extractPage its) []
    ∧ exceptOk (run cfgRock envPageFail s0Fresh none none none) = true :=
  ⟨page_failure_truncates_and_run_continues.1 () [[itemA]] [] [] (by decide),
   page_failure_truncates_and_run_continues.2 cfgRock envPageFail s0Fresh none none none⟩

/-- Witness for C2 at a concrete input: a run with one new track and a
failing history write completes with the file unchanged and the counter
bumped. -/
theorem save_failure_swallowed_witness :
    exceptOk (run cfgRock envNoWrite s0Fresh none none none) = true
    ∧ (runState (run cfgRock envNoWrite s0Fresh none none none)).file = s0Fresh.file
    ∧ (runState (run cfgRock envNoWrite s0Fresh none none none)).history.total_runs
        = s0Fresh.history.total_runs + 1
    ∧ (runState (run cfgRock envNoWrite s0Fresh none none none)).history.last_run
        = some envNoWrite.now :=
  save_failure_swallowed cfgRock envNoWrite s0Fresh rfl rfl (by decide)

/-- Witness for C10 at a concrete input: a plain run over a ledger that
already covers the enumeration finds zero new items and leaves ledger and
file untouched. -/
theorem zero_new_no_persist_witness :
    exceptOk (run cfgRock envOld sDone none none none) = true
    ∧ (runState (run cfgRock envOld sDone none none none)).history = sDone.history
    ∧ (runState (run cfgRock envOld sDone none none none)).file = sDone.file :=
  zero_new_no_persist cfgRock envOld sDone none none none (Or.inl rfl) (by decide)

/-- Witness for C5 at a concrete input: after a first run that sorts one
track, a second run over the same pages sorts nothing and leaves the ledger
as the first run left it. -/
theorem run_twice_no_new_sorted_witness :
    exceptOk (run cfgRock envBase (fresh_instance
        (runState (run cfgRock envBase s0Fresh none none none)).file
        (runState (run cfgRock envBase s0Fresh none none none)).world) none none none) = true
    ∧ (runStats (run cfgRock envBase (fresh_instance
        (runState (run cfgRock envBase s0Fresh none none none)).file
        (runState (run cfgRock envBase s0Fresh none none none)).world) none none none)).sorted
        = 0
    ∧ (runState (run cfgRock envBase (fresh_instance
        (runState (run cfgRock envBase s0Fresh none none none)).file
        (runState (run cfgRock envBase s0Fresh none none none)).world) none none none)).file
        = (runState (run cfgRock envBase s0Fresh none none none)).file
    ∧ (runState (run cfgRock envBase (fresh_instance
        (runState (run cfgRock envBase s0Fresh none none none)).file
        (runState (run cfgRock envBase s0Fresh none none none)).world) none none none)).history
        = (runState (run cfgRock envBase s0Fresh none none none)).history :=
  run_twice_no_new_sorted cfgRock envBase envBase s0Fresh none none none rfl rfl rfl

/-- Witness for C8 at concrete inputs: with start date 2024-01-02, an item
acquired on 2024-01-01 is marked baseline and an item acquired exactly on
2024-01-02 is not. -/
theorem date_baseline_strict_boundary_witness :
    alHas (init_baseline envTwo s0Fresh "date" (some "2024-01-02") none).history.processed_tracks
      trackOld2.id = true
    ∧ alHas (init_baseline envTwo s0Fresh "date"
        (some "2024-01-02") none).history.processed_tracks trackB2.id = false :=
  ⟨(date_baseline_strict_boundary envTwo s0Fresh "2024-01-02" trackOld2 (by decide) (by decide)
      (by decide) (by decide) (by decide) (by decide) (by decide)).mpr (by decide),
   by
    have h := date_baseline_strict_boundary envTwo s0Fresh "2024-01-02" trackB2 (by decide)
      (by decide) (by decide) (by decide) (by decide) (by decide) (by decide)
    cases hx : alHas (init_baseline envTwo s0Fresh "date"
        (some "2024-01-02") none).history.processed_tracks trackB2.id
    · rfl
    · exact absurd (h.mp hx) (by decide)⟩

end AutoList
